import Mathlib

/-!
Verification development for the amazon-product-lookup client library
(`amazon_product_lookup/api.py`).

The file shallowly embeds the request-building, signing and
response-normalization pipeline of `AmazonAPI.lookup` together with the
typed item model (`AmazonItem`, `Links`, `Offers`, `OfferSummary`,
`ItemAttributes`).  Parsed response documents (the output of
`xmltodict.parse`) are modelled by the `PyVal` tree type; Python runtime
failures (KeyError, TypeError, AttributeError, ValueError) and the
exception classes of the library (`APICallError`, `APIReturnError`) are
modelled by `PyErr`, and every fallible operation returns
`Except PyErr _`.  The network call itself is out of scope: `lookup` is
split at the transport boundary into `lookupBuild` (argument validation,
canonical query construction and signing, producing the request URL) and
`lookupProcess` (validation and normalization of the parsed response).
-/

set_option maxHeartbeats 1000000
set_option maxRecDepth 100000

/-- A Python value as it occurs in the parsed response tree.  `xmltodict`
produces nested `OrderedDict` / `list` / `str` data; `none`, `bool` and
`int` additionally occur as field values of the item model. -/
inductive PyVal where
  | none
  | bool (b : Bool)
  | int (n : Int)
  | str (s : String)
  | dict (es : List (String × PyVal))
  | list (xs : List PyVal)

/-- Python-level failures raised by the embedded code.  `apiCallError`
and `apiReturnError` model the two exception classes the library
defines; the rest are the relevant builtin exceptions. -/
inductive PyErr where
  | keyError
  | typeError
  | attributeError
  | valueError
  | apiCallError (msg : String)
  | apiReturnError (msg : String)
deriving DecidableEq

/-- An argument that the caller passes for `item_id` or
`response_group`: either a tuple of strings, or some value that is not a
tuple (which `lookup` rejects with `isinstance` checks). -/
inductive PyArg where
  | tuple (xs : List String)
  | nonTuple

/-- First value bound to a key in an association list (Python dict
lookup; keys are unique in every dict the code builds). -/
def lookupEntry : List (String × PyVal) → String → Option PyVal
  | [], _ => Option.none
  | (k, v) :: rest, key => if k == key then some v else lookupEntry rest key

/-- Python `v.get(key, default)`.  Only dicts have a `get` method; on
any other value an `AttributeError` is raised. -/
def pyGet (v : PyVal) (key : String) (default : PyVal) : Except PyErr PyVal :=
  match v with
  | .dict es => .ok ((lookupEntry es key).getD default)
  | _ => .error .attributeError

/-- Python `v[key]` with a string key: missing dict key is a
`KeyError`; indexing a list, string, number or `None` with a string key
is a `TypeError`. -/
def pySubscript (v : PyVal) (key : String) : Except PyErr PyVal :=
  match v with
  | .dict es =>
    match lookupEntry es key with
    | some x => .ok x
    | Option.none => .error .keyError
  | _ => .error .typeError

/-- Python iteration: a dict yields its keys, a list its elements, a
string its characters (as one-character strings); `None`, numbers and
booleans are not iterable. -/
def pyIter : PyVal → Except PyErr (List PyVal)
  | .dict es => .ok (es.map (fun e => PyVal.str e.1))
  | .list xs => .ok xs
  | .str s => .ok (s.data.map (fun c => PyVal.str (String.singleton c)))
  | _ => .error .typeError

/-- Python `v == lit` where `lit` is a string literal: only equal
strings compare equal; values of any other type compare unequal. -/
def pyEqStr (v : PyVal) (lit : String) : Bool :=
  match v with
  | .str s => s == lit
  | _ => false

/-- Chained subscripting `v[k1][k2]...`, as in
`response[..][..][..]`. -/
def pyPath (v : PyVal) : List String → Except PyErr PyVal
  | [] => .ok v
  | k :: ks => do pyPath (← pySubscript v k) ks

/-- Digits of a decimal string, failing on a non-digit. -/
def digitsToNat : List Char → Option Nat
  | [] => some 0
  | c :: cs =>
    if c.isDigit then
      (digitsToNat cs).map (fun rest => (c.toNat - 48) * 10 ^ cs.length + rest)
    else Option.none

/-- Python `int(s)` on a string: optional surrounding whitespace, an
optional sign, then at least one decimal digit; anything else raises a
`ValueError`. -/
def pyIntParse (s : String) : Except PyErr Int :=
  let core : List Char → Except PyErr Int := fun ds =>
    if ds.isEmpty then .error .valueError
    else
      match digitsToNat ds with
      | some n => .ok (Int.ofNat n)
      | Option.none => .error .valueError
  let stripped :=
    ((s.data.dropWhile Char.isWhitespace).reverse.dropWhile Char.isWhitespace).reverse
  match stripped with
  | '+' :: ds => core ds
  | '-' :: ds => (core ds).map (fun n => -n)
  | ds => core ds

/-- Python `repr` of a string: single-quoted with backslash escapes for
the quote, the backslash and common control characters. -/
def pyStrRepr (s : String) : String :=
  let q := String.singleton (Char.ofNat 39)
  let esc : Char → String := fun c =>
    if c = Char.ofNat 39 then String.singleton (Char.ofNat 92) ++ q
    else if c = Char.ofNat 92 then
      String.singleton (Char.ofNat 92) ++ String.singleton (Char.ofNat 92)
    else if c = Char.ofNat 10 then String.singleton (Char.ofNat 92) ++ "n"
    else if c = Char.ofNat 13 then String.singleton (Char.ofNat 92) ++ "r"
    else if c = Char.ofNat 9 then String.singleton (Char.ofNat 92) ++ "t"
    else String.singleton c
  q ++ (s.data.map esc).foldl (fun acc t => acc ++ t) "" ++ q

mutual

/-- Python `repr` of a value; parsed-response dicts are `OrderedDict`
instances, printed in their `OrderedDict([(key, value), ...])` form. -/
def pyReprOf : PyVal → String
  | .none => "None"
  | .bool b => cond b "True" "False"
  | .int n => toString n
  | .str s => pyStrRepr s
  | .dict es => "OrderedDict([" ++ pyReprEntries es ++ "])"
  | .list xs => "[" ++ pyReprElems xs ++ "]"

/-- Comma-separated `(key, value)` pairs of an `OrderedDict` repr. -/
def pyReprEntries : List (String × PyVal) → String
  | [] => ""
  | [e] => "(" ++ pyStrRepr e.1 ++ ", " ++ pyReprOf e.2 ++ ")"
  | e :: f :: es =>
    "(" ++ pyStrRepr e.1 ++ ", " ++ pyReprOf e.2 ++ "), " ++ pyReprEntries (f :: es)

/-- Comma-separated element reprs of a list repr. -/
def pyReprElems : List PyVal → String
  | [] => ""
  | [x] => pyReprOf x
  | x :: y :: xs => pyReprOf x ++ ", " ++ pyReprElems (y :: xs)

end

/-- Python `str(v)`: identity on strings, `repr` on everything else
(which agrees with `str` on the types occurring here). -/
def pyStrOf : PyVal → String
  | .str s => s
  | v => pyReprOf v

/-- Uppercase hexadecimal digit of a value below 16. -/
def hexUpper (n : Nat) : Char :=
  if n < 10 then Char.ofNat (48 + n) else Char.ofNat (55 + n)

/-- Four-digit hexadecimal rendering used by JSON `\uXXXX` escapes. -/
def hex4 (n : Nat) : String :=
  String.singleton (hexUpper (n / 4096 % 16)) ++ String.singleton (hexUpper (n / 256 % 16))
    ++ String.singleton (hexUpper (n / 16 % 16)) ++ String.singleton (hexUpper (n % 16))

/-- JSON escape of one character under `json.dumps` defaults
(`ensure_ascii=True`): quote and backslash escaped, named control
escapes, `\uXXXX` for other control or non-ASCII characters, surrogate
pairs above the basic plane. -/
def jsonEscapeChar (c : Char) : String :=
  let bs := String.singleton (Char.ofNat 92)
  if c = Char.ofNat 34 then bs ++ String.singleton (Char.ofNat 34)
  else if c = Char.ofNat 92 then bs ++ bs
  else if c = Char.ofNat 10 then bs ++ "n"
  else if c = Char.ofNat 13 then bs ++ "r"
  else if c = Char.ofNat 9 then bs ++ "t"
  else if c = Char.ofNat 8 then bs ++ "b"
  else if c = Char.ofNat 12 then bs ++ "f"
  else if c.toNat < 32 then bs ++ "u" ++ (hex4 c.toNat).toLower
  else if c.toNat < 127 then String.singleton c
  else if c.toNat < 65536 then bs ++ "u" ++ (hex4 c.toNat).toLower
  else
    let v := c.toNat - 65536
    bs ++ "u" ++ (hex4 (55296 + v / 1024)).toLower ++ bs ++ "u" ++ (hex4 (56320 + v % 1024)).toLower

/-- JSON string literal for `s`. -/
def jsonQuote (s : String) : String :=
  let dq := String.singleton (Char.ofNat 34)
  dq ++ (s.data.map jsonEscapeChar).foldl (fun acc t => acc ++ t) "" ++ dq

/-- Run of `n` spaces. -/
def spaces (n : Nat) : String := String.mk (List.replicate n (Char.ofNat 32))

mutual

/-- One value under `json.dumps(v, indent=2)`, printed at nesting level
`lvl` (which fixes the indentation of the closing bracket). -/
def jsonDumpIndent : Nat → PyVal → String
  | _, .none => "null"
  | _, .bool b => cond b "true" "false"
  | _, .int n => toString n
  | _, .str s => jsonQuote s
  | _, .dict [] => "\x7b\x7d"
  | lvl, .dict (e :: es) =>
    "\x7b\n" ++ jsonDumpEntries (lvl + 1) (e :: es) ++ "\n" ++ spaces (2 * lvl) ++ "\x7d"
  | _, .list [] => "[]"
  | lvl, .list (x :: xs) =>
    "[\n" ++ jsonDumpElems (lvl + 1) (x :: xs) ++ "\n" ++ spaces (2 * lvl) ++ "]"
termination_by _ v => sizeOf v
decreasing_by all_goals simp_wf

/-- Newline-separated `"key": value` lines of a non-empty dict. -/
def jsonDumpEntries : Nat → List (String × PyVal) → String
  | _, [] => ""
  | lvl, [(k, v)] => spaces (2 * lvl) ++ jsonQuote k ++ ": " ++ jsonDumpIndent lvl v
  | lvl, (k, v) :: e :: es =>
    spaces (2 * lvl) ++ jsonQuote k ++ ": " ++ jsonDumpIndent lvl v ++ ",\n"
      ++ jsonDumpEntries lvl (e :: es)
termination_by _ es => sizeOf es
decreasing_by all_goals (simp_wf; all_goals omega)

/-- Newline-separated element lines of a non-empty list. -/
def jsonDumpElems : Nat → List PyVal → String
  | _, [] => ""
  | lvl, [x] => spaces (2 * lvl) ++ jsonDumpIndent lvl x
  | lvl, x :: y :: xs =>
    spaces (2 * lvl) ++ jsonDumpIndent lvl x ++ ",\n" ++ jsonDumpElems lvl (y :: xs)
termination_by _ xs => sizeOf xs
decreasing_by all_goals (simp_wf; all_goals omega)

end

/-- Python `json.dumps(v, indent=2)`. -/
def jsonDumps (v : PyVal) : String := jsonDumpIndent 0 v

/-- UTF-8 encoding of one Unicode code point. -/
def utf8EncodeChar (n : Nat) : List Nat :=
  if n < 128 then [n]
  else if n < 2048 then [192 + n / 64, 128 + n % 64]
  else if n < 65536 then [224 + n / 4096, 128 + n / 64 % 64, 128 + n % 64]
  else [240 + n / 262144, 128 + n / 4096 % 64, 128 + n / 64 % 64, 128 + n % 64]

/-- UTF-8 bytes of a string. -/
def utf8Encode (s : String) : List Nat :=
  s.data.foldr (fun c acc => utf8EncodeChar c.toNat ++ acc) []

/-- Byte values that `urllib.parse.quote_plus` leaves unencoded: ASCII
letters, digits, and the characters underscore, dot, hyphen, tilde. -/
def isUrlSafeByte (b : Nat) : Bool :=
  (65 ≤ b && b ≤ 90) || (97 ≤ b && b ≤ 122) || (48 ≤ b && b ≤ 57)
    || b == 95 || b == 46 || b == 45 || b == 126

/-- Percent-escape of one byte, with uppercase hexadecimal digits. -/
def percentByte (b : Nat) : String :=
  "%" ++ String.singleton (hexUpper (b / 16)) ++ String.singleton (hexUpper (b % 16))

/-- Python `urllib.parse.quote_plus(s)`: UTF-8 encode, keep safe bytes,
turn a space into `+`, percent-escape everything else. -/
def quotePlus (s : String) : String :=
  (utf8Encode s).foldl
    (fun acc b =>
      acc ++
        (if isUrlSafeByte b then String.singleton (Char.ofNat b)
         else if b == 32 then "+" else percentByte b))
    ""

/-- Python `bytes(s, "latin-1")`: one byte per character, failing with a
`UnicodeEncodeError` (a `ValueError` subclass) on any code point above
255. -/
def latin1Encode (s : String) : Except PyErr (List Nat) :=
  s.data.foldr
    (fun c acc =>
      if c.toNat < 256 then acc.map (fun bs => c.toNat :: bs)
      else .error .valueError)
    (.ok [])

/-- Big-endian eight-byte rendering of a natural number, as used for the
SHA-256 message-length trailer. -/
def be64 (n : Nat) : List Nat :=
  [n / 72057594037927936 % 256, n / 281474976710656 % 256, n / 1099511627776 % 256,
   n / 4294967296 % 256, n / 16777216 % 256, n / 65536 % 256, n / 256 % 256, n % 256]

/-- Rotation of a 32-bit word to the right by k positions. -/
def rotr32 (k a : Nat) : Nat := ((a >>> k) ||| (a <<< (32 - k))) % 4294967296

/-- Bitwise complement of a 32-bit word. -/
def not32 (a : Nat) : Nat := 4294967295 - a

/-- SHA-256 Ch function. -/
def sha256Ch (x y z : Nat) : Nat := (x &&& y) ^^^ (not32 x &&& z)

/-- SHA-256 Maj function. -/
def sha256Maj (x y z : Nat) : Nat := (x &&& y) ^^^ (x &&& z) ^^^ (y &&& z)

/-- SHA-256 lowercase sigma-0. -/
def sha256s0 (x : Nat) : Nat := rotr32 7 x ^^^ rotr32 18 x ^^^ (x >>> 3)

/-- SHA-256 lowercase sigma-1. -/
def sha256s1 (x : Nat) : Nat := rotr32 17 x ^^^ rotr32 19 x ^^^ (x >>> 10)

/-- SHA-256 uppercase Sigma-0. -/
def sha256S0 (x : Nat) : Nat := rotr32 2 x ^^^ rotr32 13 x ^^^ rotr32 22 x

/-- SHA-256 uppercase Sigma-1. -/
def sha256S1 (x : Nat) : Nat := rotr32 6 x ^^^ rotr32 11 x ^^^ rotr32 25 x

/-- SHA-256 round constants (FIPS 180-4, in decimal). -/
def sha256K : List Nat :=
  [1116352408, 1899447441, 3049323471, 3921009573, 961987163, 1508970993,
   2453635748, 2870763221, 3624381080, 310598401, 607225278, 1426881987,
   1925078388, 2162078206, 2614888103, 3248222580, 3835390401, 4022224774,
   264347078, 604807628, 770255983, 1249150122, 1555081692, 1996064986,
   2554220882, 2821834349, 2952996808, 3210313671, 3336571891, 3584528711,
   113926993, 338241895, 666307205, 773529912, 1294757372, 1396182291,
   1695183700, 1986661051, 2177026350, 2456956037, 2730485921, 2820302411,
   3259730800, 3345764771, 3516065817, 3600352804, 4094571909, 275423344,
   430227734, 506948616, 659060556, 883997877, 958139571, 1322822218,
   1537002063, 1747873779, 1955562222, 2024104815, 2227730452, 2361852424,
   2428436474, 2756734187, 3204031479, 3329325298]

/-- SHA-256 initial hash value (FIPS 180-4, in decimal). -/
def sha256H0 : List Nat :=
  [1779033703, 3144134277, 1013904242, 2773480762, 1359893119, 2600822924,
   528734635, 1541459225]

/-- Big-endian 32-bit word from four bytes. -/
def word32OfBytes : List Nat → Nat
  | [a, b, c, d] => ((a * 256 + b) * 256 + c) * 256 + d
  | _ => 0

/-- Extension of the 16-word message schedule to 64 words. -/
def extendW (w : List Nat) : Nat → List Nat
  | 0 => w
  | n + 1 =>
    let i := w.length
    let nw := (sha256s1 (w.getD (i - 2) 0) + w.getD (i - 7) 0
      + sha256s0 (w.getD (i - 15) 0) + w.getD (i - 16) 0) % 4294967296
    extendW (w ++ [nw]) n

/-- The eight SHA-256 working registers. -/
structure Sha256State where
  a : Nat
  b : Nat
  c : Nat
  d : Nat
  e : Nat
  f : Nat
  g : Nat
  h : Nat

/-- One SHA-256 compression round. -/
def sha256Round (st : Sha256State) (k w : Nat) : Sha256State :=
  let t1 := (st.h + sha256S1 st.e + sha256Ch st.e st.f st.g + k + w) % 4294967296
  let t2 := (sha256S0 st.a + sha256Maj st.a st.b st.c) % 4294967296
  ⟨(t1 + t2) % 4294967296, st.a, st.b, st.c, (st.d + t1) % 4294967296, st.e, st.f, st.g⟩

/-- Compression of one 64-byte chunk into the running hash. -/
def sha256Chunk (hs : List Nat) (chunk : List Nat) : List Nat :=
  let w := extendW ((List.range 16).map (fun i => word32OfBytes ((chunk.drop (4 * i)).take 4))) 48
  let st0 : Sha256State :=
    ⟨hs.getD 0 0, hs.getD 1 0, hs.getD 2 0, hs.getD 3 0,
     hs.getD 4 0, hs.getD 5 0, hs.getD 6 0, hs.getD 7 0⟩
  let st := (List.zip sha256K w).foldl (fun s kw => sha256Round s kw.1 kw.2) st0
  [(hs.getD 0 0 + st.a) % 4294967296, (hs.getD 1 0 + st.b) % 4294967296,
   (hs.getD 2 0 + st.c) % 4294967296, (hs.getD 3 0 + st.d) % 4294967296,
   (hs.getD 4 0 + st.e) % 4294967296, (hs.getD 5 0 + st.f) % 4294967296,
   (hs.getD 6 0 + st.g) % 4294967296, (hs.getD 7 0 + st.h) % 4294967296]

/-- Split a byte list into 64-byte chunks. -/
def chunks64 (l : List Nat) : List (List Nat) :=
  if h : l = [] then [] else (l.take 64) :: chunks64 (l.drop 64)
termination_by l.length
decreasing_by
  have hp : 0 < l.length := List.length_pos.mpr h
  simp only [List.length_drop]
  omega

/-- SHA-256 of a byte list, as 32 bytes. -/
def sha256 (msg : List Nat) : List Nat :=
  let padded := msg ++ [128] ++ List.replicate ((55 + 64 - msg.length % 64) % 64) 0
    ++ be64 (8 * msg.length)
  let final := (chunks64 padded).foldl sha256Chunk sha256H0
  final.foldr
    (fun wd acc => [wd / 16777216 % 256, wd / 65536 % 256, wd / 256 % 256, wd % 256] ++ acc) []

/-- HMAC-SHA256 of a message under a key, both byte lists. -/
def hmacSha256 (key msg : List Nat) : List Nat :=
  let k0 := if key.length > 64 then sha256 key else key
  let kp := k0 ++ List.replicate (64 - k0.length) 0
  let ipad := kp.map (fun b => b ^^^ 54)
  let opad := kp.map (fun b => b ^^^ 92)
  sha256 (opad ++ sha256 (ipad ++ msg))

/-- The 64 characters of the standard Base64 alphabet. -/
def base64Alphabet : List Char :=
  "ABCDEFGHIJKLMNOPQRSTUVWXYZabcdefghijklmnopqrstuvwxyz0123456789+/".data

/-- Character for a 6-bit group. -/
def base64Char (n : Nat) : String := String.singleton (base64Alphabet.getD n (Char.ofNat 65))

/-- Standard Base64 encoding of a byte list with `=` padding, decoding
to an ASCII string (`base64.b64encode(...).decode()`). -/
def base64Encode : List Nat → String
  | [] => ""
  | [a] => base64Char (a / 4) ++ base64Char (a % 4 * 16) ++ "=="
  | [a, b] => base64Char (a / 4) ++ base64Char (a % 4 * 16 + b / 16) ++ base64Char (b % 16 * 4) ++ "="
  | a :: b :: c :: rest =>
    base64Char (a / 4) ++ base64Char (a % 4 * 16 + b / 16) ++ base64Char (b % 16 * 4 + c / 64)
      ++ base64Char (c % 64) ++ base64Encode rest

/-- Python `",".join(xs)`. -/
def joinComma : List String → String
  | [] => ""
  | [x] => x
  | x :: y :: xs => x ++ "," ++ joinComma (y :: xs)

/-- Lexicographic strictly-less comparison of character lists by code
point. -/
def charListLt : List Char → List Char → Bool
  | [], [] => false
  | [], _ :: _ => true
  | _ :: _, [] => false
  | c :: cs, d :: ds =>
    if c.toNat < d.toNat then true
    else if d.toNat < c.toNat then false
    else charListLt cs ds

/-- Python string comparison `a < b`: lexicographic by code point (the
byte/ordinal order the canonical query relies on). -/
def strLtb (a b : String) : Bool := charListLt a.data b.data

/-- Python string comparison `a <= b`. -/
def strLeb (a b : String) : Bool := ! strLtb b a

/-- Insertion of a string into a sorted list, keeping earlier elements
first on ties (stable, as Python `sorted`). -/
def insertSorted (x : String) : List String → List String
  | [] => [x]
  | y :: ys => if strLeb y x then y :: insertSorted x ys else x :: y :: ys

/-- Python `sorted` on a list of strings (ascending code-point order). -/
def pySorted (xs : List String) : List String := xs.foldr insertSorted []

/-- Insertion of a pair into a list of pairs sorted by first component,
stable on ties. -/
def insertSortedPair (x : String × String) : List (String × String) → List (String × String)
  | [] => [x]
  | y :: ys => if strLeb y.1 x.1 then y :: insertSortedPair x ys else x :: y :: ys

/-- Sorting a pair list by first component (parameter name). -/
def pySortedPairs (xs : List (String × String)) : List (String × String) :=
  xs.foldr insertSortedPair []

/-- Configuration held by an `AmazonAPI` instance (the constructor
arguments the lookup pipeline reads). -/
structure APIConfig where
  access_key : String
  secret_access_key : String
  associate_id : String

/-- The `query` dict of `AmazonAPI.lookup` before URL encoding, in
insertion order: the eleven fixed parameters, plus `MerchantId` exactly
when `merchant_id == "Amazon"`. -/
def rawQuery (access_key associate_id : String)
    (item_ids response_group timestamp condition reviews_summary id_type merchant_id : String) :
    List (String × String) :=
  [("Service", "AWSECommerceService"),
   ("AWSAccessKeyId", access_key),
   ("Operation", "ItemLookup"),
   ("ItemId", item_ids),
   ("ResponseGroup", response_group),
   ("Version", "2013-08-01"),
   ("Timestamp", timestamp),
   ("AssociateTag", associate_id),
   ("Condition", condition),
   ("IncludeReviewsSummary", reviews_summary),
   ("IdType", id_type)]
    ++ (if merchant_id == "Amazon" then [("MerchantId", merchant_id)] else [])

/-- URL encoding pass over the query dict: every value is passed
through `quote_plus`, keys are untouched. -/
def encodedQuery (q : List (String × String)) : List (String × String) :=
  q.map (fun p => (p.1, quotePlus p.2))

/-- Value of a key in the query dict (`query[key]`; every key looked up
comes from the dict itself, so the default is never reached). -/
def queryValue (q : List (String × String)) (key : String) : String :=
  match q with
  | [] => ""
  | (k, v) :: rest => if k == key then v else queryValue rest key

/-- The canonical parameter sequence: keys sorted by code point, each
paired with its encoded value. -/
def canonicalPairs (q : List (String × String)) : List (String × String) :=
  (pySorted (q.map Prod.fst)).map (fun k => (k, queryValue q k))

/-- The canonical query string: `name=value` pairs joined with `&` in
sorted key order (built with a leading `&` that is stripped, as in the
source). -/
def queryStringOf (q : List (String × String)) : String :=
  ((canonicalPairs q).foldl (fun acc p => acc ++ "&" ++ p.1 ++ "=" ++ p.2) "").drop 1

/-- Signing step of `lookup`: the string-to-sign prefixes the canonical
query string with the fixed `GET` / host / path header lines, the
HMAC-SHA256 digest under the Latin-1 bytes of the secret key is Base64
and then percent encoded, and the result is appended to the query
string as a final `Signature` parameter. -/
def signQueryString (secret_access_key query_str : String) : Except PyErr String := do
  let data := "GET\nwebservices.amazon.com\n/onca/xml\n" ++ query_str
  let keyBytes ← latin1Encode secret_access_key
  let msgBytes ← latin1Encode data
  let dig := hmacSha256 keyBytes msgBytes
  let sig := quotePlus (base64Encode dig)
  pure (query_str ++ "&Signature=" ++ sig)

/-- Outcome of the part of `lookup` that runs before the network call:
either the function returned early with an error object as its value
(the `return APICallError(...)` statement), or it reached the transport
call with the fully signed request URL. -/
inductive SetupResult where
  | earlyReturn (e : PyErr)
  | url (request_url : String)

/-- Validation, query construction and signing of `AmazonAPI.lookup`,
up to (and excluding) the network request.  The wall-clock timestamp is
passed in as a parameter.  Mirrors the source order: `isinstance`
checks on `item_id` and `response_group` (raising `APICallError`), the
`len(item_id) > 10` check (whose body returns the error object instead
of raising it), comma joins, query construction, value encoding,
canonical query string, signature, and the final request URL. -/
def lookupBuild (cfg : APIConfig) (item_id : PyArg) (id_type : String) (response_group : PyArg)
    (condition : String) (include_reviews_summary : Bool) (merchant_id : String)
    (timestamp : String) : Except PyErr SetupResult :=
  match item_id with
  | .nonTuple => .error (.apiCallError "item_id must be of type \"tuple\"")
  | .tuple ids =>
    match response_group with
    | .nonTuple => .error (.apiCallError "response_group must be of type \"tuple\"")
    | .tuple rgs =>
      if ids.length > 10 then
        .ok (.earlyReturn (.apiCallError "API item lookups must contain 1-10 items."))
      else do
        let response_group_str := joinComma rgs
        let item_ids := joinComma ids
        let query := rawQuery cfg.access_key cfg.associate_id item_ids response_group_str
          timestamp condition (if include_reviews_summary then "True" else "False")
          id_type merchant_id
        let encoded := encodedQuery query
        let query_str := queryStringOf encoded
        let signed ← signQueryString cfg.secret_access_key query_str
        pure (.url ("http://webservices.amazon.com/onca/xml?" ++ signed))

/-- Chain of `get` calls with empty-dict defaults for intermediate
steps and `None` default for the last, as in
`v.get(k1, \x7b\x7d).get(k2)`. -/
def pyGetPath (v : PyVal) : List String → Except PyErr PyVal
  | [] => .ok v
  | [k] => pyGet v k .none
  | k :: k2 :: rest => do pyGetPath (← pyGet v k (.dict [])) (k2 :: rest)

/-- Conversion applied to the three price fields:
`int(x) if isinstance(x, str) else None`. -/
def coerceAmount (v : PyVal) : Except PyErr PyVal :=
  match v with
  | .str s => (pyIntParse s).map PyVal.int
  | _ => .ok .none

/-- Fields of the `Links` view. -/
structure LinksView where
  item_link : PyVal
  description_url : PyVal
  all_offers_url : PyVal

/-- The generator expression
`next(x[URL] for x in links if x[Description] == target)` with its
`StopIteration` handler: the `URL` value of the first record whose
`Description` equals the target, `None` when nothing matches, and a
propagated error when a record cannot be subscripted. -/
def findLinkUrl (links : List PyVal) (target : String) : Except PyErr PyVal :=
  match links with
  | [] => .ok .none
  | x :: xs => do
    let d ← pySubscript x "Description"
    if pyEqStr d target then pySubscript x "URL"
    else findLinkUrl xs target

/-- Constructor of the `Links` view over the `ItemLinks` subtree. -/
def linksInit (item_links : PyVal) : Except PyErr LinksView := do
  let il ← pyGet item_links "ItemLink" (.dict [])
  let elems ← pyIter il
  let description_url ← findLinkUrl elems "Technical Details"
  let all_offers_url ← findLinkUrl elems "All Offers"
  pure ⟨il, description_url, all_offers_url⟩

/-- Fields of the `Offers` (buy box) view. -/
structure OffersView where
  offers : PyVal
  total_offers : PyVal
  more_offers_url : PyVal
  condition : PyVal
  buy_box_price : PyVal
  super_saver_shipping : Bool
  prime_shipping : Bool

/-- Constructor of the `Offers` view over the `Offers` subtree. -/
def offersInit (offers : PyVal) : Except PyErr OffersView := do
  let total_offers ← pyGet offers "TotalOffers" .none
  let mo ← pyGet offers "MoreOffersUrl" .none
  let more_offers_url := if pyEqStr mo "0" then PyVal.none else mo
  let condition ← pyGetPath offers ["Offer", "OfferAttributes", "Condition"]
  let bb ← pyGetPath offers ["Offer", "OfferListing", "Price", "Amount"]
  let buy_box_price ← coerceAmount bb
  let sss ← pyGetPath offers ["Offer", "OfferListing", "IsEligibleForSuperSaverShipping"]
  let ps ← pyGetPath offers ["Offer", "OfferListing", "IsEligibleForPrime"]
  let super_saver_shipping := pyEqStr sss "1"
  let prime_shipping := pyEqStr ps "1"
  pure ⟨offers, total_offers, more_offers_url, condition, buy_box_price,
    super_saver_shipping, prime_shipping⟩

/-- Fields of the `OfferSummary` view. -/
structure OfferSummaryView where
  offer_summary : PyVal
  lowest_new_price : PyVal
  lowest_used_price : PyVal
  lowest_collectible_price : PyVal
  lowest_refurbished_price : PyVal
  new_offers : PyVal
  used_offers : PyVal
  collectible_offers : PyVal
  refurbished_offers : PyVal

/-- Constructor of the `OfferSummary` view over the `OfferSummary`
subtree.  Only `LowestNewPrice.Amount` is passed through the integer
conversion; the used, collectible and refurbished amounts and the offer
counts are stored as found. -/
def offerSummaryInit (offer_summary : PyVal) : Except PyErr OfferSummaryView := do
  let lnp ← pyGetPath offer_summary ["LowestNewPrice", "Amount"]
  let lowest_new_price ← coerceAmount lnp
  let lowest_used_price ← pyGetPath offer_summary ["LowestUsedPrice", "Amount"]
  let lowest_collectible_price ← pyGetPath offer_summary ["LowestCollectiblePrice", "Amount"]
  let lowest_refurbished_price ← pyGetPath offer_summary ["LowestRefurbishedPrice", "Amount"]
  let new_offers ← pyGet offer_summary "TotalNew" .none
  let used_offers ← pyGet offer_summary "TotalUsed" .none
  let collectible_offers ← pyGet offer_summary "TotalCollectible" .none
  let refurbished_offers ← pyGet offer_summary "TotalRefurbished" .none
  pure ⟨offer_summary, lowest_new_price, lowest_used_price, lowest_collectible_price,
    lowest_refurbished_price, new_offers, used_offers, collectible_offers, refurbished_offers⟩

/-- Fields of the `ItemAttributes` view. -/
structure ItemAttributesView where
  item_attributes : PyVal
  binding : PyVal
  brand : PyVal
  ean : PyVal
  dimensions : PyVal
  label : PyVal
  list_price : PyVal
  model : PyVal
  title : PyVal
  platform : PyVal
  upc : PyVal
  upc_list : PyVal

/-- Constructor of the `ItemAttributes` view over the `ItemAttributes`
subtree.  Note that `list_price` stores `ListPrice.Amount` exactly as
found, with no integer conversion. -/
def itemAttributesInit (item_attributes : PyVal) : Except PyErr ItemAttributesView := do
  let binding ← pyGet item_attributes "Binding" .none
  let brand ← pyGet item_attributes "Brand" .none
  let ean ← pyGet item_attributes "EAN" .none
  let dimensions ← pyGet item_attributes "ItemDimensions" .none
  let label ← pyGet item_attributes "Label" .none
  let list_price ← pyGetPath item_attributes ["ListPrice", "Amount"]
  let model ← pyGet item_attributes "Model" .none
  let title ← pyGet item_attributes "Title" .none
  let platform ← pyGet item_attributes "Platform" .none
  let upc ← pyGet item_attributes "UPC" .none
  let upc_list ← pyGetPath item_attributes ["UPCList", "UPCListElement"]
  pure ⟨item_attributes, binding, brand, ean, dimensions, label, list_price, model,
    title, platform, upc, upc_list⟩

/-- An `AmazonItem`: the stored item subtree and the four sub-views
built by the constructor. -/
structure AmazonItemView where
  response : PyVal
  item_attributes : ItemAttributesView
  offer_summary : OfferSummaryView
  offers : OffersView
  item_links : LinksView

/-- Constructor of `AmazonItem` over one item subtree. -/
def amazonItemInit (response : PyVal) : Except PyErr AmazonItemView := do
  let item_attributes ← itemAttributesInit (← pyGet response "ItemAttributes" (.dict []))
  let offer_summary ← offerSummaryInit (← pyGet response "OfferSummary" (.dict []))
  let offers ← offersInit (← pyGet response "Offers" (.dict []))
  let item_links ← linksInit (← pyGet response "ItemLinks" (.dict []))
  pure ⟨response, item_attributes, offer_summary, offers, item_links⟩

/-- The list comprehension `[AmazonItem(i) for i in products]`:
constructors run left to right and the first exception propagates. -/
def mapInit : List PyVal → Except PyErr (List AmazonItemView)
  | [] => .ok []
  | x :: xs => do
    let it ← amazonItemInit x
    let rest ← mapInit xs
    pure (it :: rest)

/-- Response validation and normalization of `AmazonAPI.lookup`, from
the parsed response tree to the list of items: check the validity flag,
raise `APIReturnError` from the error node when invalid, and otherwise
dispatch on the shape of the items node (`OrderedDict` gives one item,
`list` gives one item per record, anything else raises
`APIReturnError` with the message `Unknown response type`). -/
def lookupProcess (response : PyVal) : Except PyErr (List AmazonItemView) := do
  let valid ← pyPath response ["ItemLookupResponse", "Items", "Request", "IsValid"]
  if pyEqStr valid "False" then
    let codes ← pyPath response ["ItemLookupResponse", "Items", "Request", "Errors", "Error"]
    match codes with
    | .dict _ => do
      let code ← pySubscript codes "Code"
      let message ← pySubscript codes "Message"
      .error (.apiReturnError ("API Lookup Error " ++ pyStrOf code ++ " - " ++ pyStrOf message))
    | _ => .error (.apiReturnError (jsonDumps codes))
  else do
    let products ← pyPath response ["ItemLookupResponse", "Items", "Item"]
    match products with
    | .dict _ => do
      let it ← amazonItemInit products
      pure [it]
    | .list xs => mapInit xs
    | _ => .error (.apiReturnError "Unknown response type")

/-- Join of a list of fields with newlines, as the specification words
the string-to-sign construction. -/
def newlineJoin : List String → String
  | [] => ""
  | [x] => x
  | x :: y :: xs => x ++ "\n" ++ newlineJoin (y :: xs)

/-- The signing contract as the specification words it: build the
string-to-sign as four newline-joined fields (fixed method token,
fixed host, fixed path, canonical query string), take HMAC-SHA256 with
secret and message as Latin-1 bytes, Base64-encode the digest, percent
encode it, and append it as a final `Signature` parameter to the
canonical query string without resorting. -/
def specSignature (secret canonicalQuery : String) : Except PyErr String := do
  let stringToSign := newlineJoin ["GET", "webservices.amazon.com", "/onca/xml", canonicalQuery]
  let keyBytes ← latin1Encode secret
  let msgBytes ← latin1Encode stringToSign
  let signature := quotePlus (base64Encode (hmacSha256 keyBytes msgBytes))
  pure (canonicalQuery ++ "&Signature=" ++ signature)

/-- A parsed response tree with the given validity-flag value and items
node, at the fixed paths the normalizer reads. -/
def mkLookupResponse (validVal itemVal : PyVal) : PyVal :=
  .dict [("ItemLookupResponse", .dict [("Items", .dict
    [("Request", .dict [("IsValid", validVal)]), ("Item", itemVal)])])]

/-- A parsed response tree whose validity flag is the string `False`,
with the given value at the error-node path. -/
def mkErrorResponse (errVal : PyVal) : PyVal :=
  .dict [("ItemLookupResponse", .dict [("Items", .dict
    [("Request", .dict [("IsValid", .str "False"), ("Errors", .dict [("Error", errVal)])])])])]

/-- Whether a link record is an object whose `Description` equals the
target string. -/
def linkMatches (target : String) (x : PyVal) : Bool :=
  match x with
  | .dict es =>
    match lookupEntry es "Description" with
    | some (.str d) => d == target
    | _ => false
  | _ => false

/-- The `URL` value stored in a link record, when the record is an
object carrying one. -/
def linkUrlEntry (x : PyVal) : Option PyVal :=
  match x with
  | .dict es => lookupEntry es "URL"
  | _ => Option.none

/-- URL of the first link record matching the target description, as
the specification words the link accessors; absent when no record
matches. -/
def specFirstUrl (target : String) (xs : List PyVal) : PyVal :=
  match xs.find? (linkMatches target) with
  | some x => (linkUrlEntry x).getD .none
  | Option.none => .none

/-- A well-formed sequence of link records: every record is an object
with a string `Description` and a `URL` entry. -/
def wellFormedLinks (xs : List PyVal) : Bool :=
  xs.all (fun x =>
    match x with
    | .dict es =>
      (match lookupEntry es "Description" with
       | some (.str _) => true
       | _ => false)
        && (lookupEntry es "URL").isSome
    | _ => false)

/-- A node that is neither object-shaped nor sequence-shaped. -/
def isScalarNode : PyVal → Bool
  | .dict _ => false
  | .list _ => false
  | _ => true

/-- Concrete sequence of link records used to instantiate the link
accessor theorem. -/
def linkFixture : List PyVal :=
  [.dict [("Description", PyVal.str "Somewhere Else"), ("URL", PyVal.str "http://y")],
   .dict [("Description", PyVal.str "All Offers"), ("URL", PyVal.str "http://x")]]

/-- Unfolding of the newline join at the four fields of the
string-to-sign. -/
theorem newlineJoin_signing (qs : String) :
    newlineJoin ["GET", "webservices.amazon.com", "/onca/xml", qs]
      = "GET\nwebservices.amazon.com\n/onca/xml\n" ++ qs := by
  cases qs
  rfl

/-- The list comprehension over item records yields one view per
record. -/
theorem mapInit_length : ∀ (xs : List PyVal) (its : List AmazonItemView),
    mapInit xs = .ok its → its.length = xs.length := by
  intro xs
  induction xs with
  | nil => intro its h; simp [mapInit] at h; simp [← h]
  | cons x xs ih =>
    intro its h
    simp only [mapInit] at h
    cases hx : amazonItemInit x with
    | error e => rw [hx] at h; simp [Except.bind, bind] at h
    | ok it =>
      rw [hx] at h
      cases hr : mapInit xs with
      | error e => rw [hr] at h; simp [Except.bind, bind] at h
      | ok rest =>
        rw [hr] at h
        simp [Except.bind, bind, pure, Except.pure] at h
        rw [← h]
        simp [ih rest hr]

/-- On a well-formed link sequence, the generator expression returns
exactly the URL of the first matching record, and `None` when no record
matches. -/
theorem findLinkUrl_spec (target : String) : ∀ (xs : List PyVal),
    wellFormedLinks xs = true → findLinkUrl xs target = .ok (specFirstUrl target xs) := by
  intro xs
  induction xs with
  | nil => intro _; rfl
  | cons x xs ih =>
    intro h
    simp only [wellFormedLinks, List.all_cons, Bool.and_eq_true] at h
    obtain ⟨hx, hxs⟩ := h
    cases x with
    | dict es =>
      simp only [Bool.and_eq_true] at hx
      obtain ⟨hd, hu⟩ := hx
      cases hde : lookupEntry es "Description" with
      | none => rw [hde] at hd; simp at hd
      | some dv =>
        cases dv <;> rw [hde] at hd <;> try simp at hd
        case str d =>
        cases huv : lookupEntry es "URL" with
        | none => rw [huv] at hu; simp at hu
        | some u =>
          by_cases ht : d == target
          · simp [findLinkUrl, pySubscript, hde, pyEqStr, ht, specFirstUrl, List.find?,
              linkMatches, huv, linkUrlEntry, Except.bind, bind, pure, Except.pure]
          · simp only [Bool.not_eq_true] at ht
            simp [findLinkUrl, pySubscript, hde, pyEqStr, ht, specFirstUrl, List.find?,
              linkMatches, Except.bind, bind, ih hxs, specFirstUrl]
    | none => simp [wellFormedLinks] at hx
    | bool b => simp [wellFormedLinks] at hx
    | int n => simp [wellFormedLinks] at hx
    | str s => simp [wellFormedLinks] at hx
    | list l => simp [wellFormedLinks] at hx

/-- C1: the claim states that malformed caller input is rejected with a
CallSetupError (`APICallError`) raised before any network work: a
non-tuple `item_id` or `response_group`, more than 10 identifiers, or
zero identifiers all fail, while every count in 1..10 passes
validation.  The code raises only for the two non-tuple cases.  For 11
identifiers, line 67 of `api.py` executes `return APICallError(...)`
instead of `raise`, so the error object is returned as the result
value; for zero identifiers no check exists at all and the builder
proceeds to a signed URL, although the message of the size check and
the comment above the checks document the 1..10 intent. -/
theorem claim_C1_validation_code_bug :
    lookupBuild ⟨"AKIDEXAMPLE", "secretkey", "assoc-20"⟩ .nonTuple "ASIN" (.tuple ["Large"])
        "New" true "All" "2026-01-01T00:00:00Z"
      = .error (.apiCallError "item_id must be of type \"tuple\"")
    ∧ lookupBuild ⟨"AKIDEXAMPLE", "secretkey", "assoc-20"⟩ (.tuple ["B000000001"]) "ASIN"
        .nonTuple "New" true "All" "2026-01-01T00:00:00Z"
      = .error (.apiCallError "response_group must be of type \"tuple\"")
    ∧ lookupBuild ⟨"AKIDEXAMPLE", "secretkey", "assoc-20"⟩
        (.tuple ["i01", "i02", "i03", "i04", "i05", "i06", "i07", "i08", "i09", "i10", "i11"])
        "ASIN" (.tuple ["Large"]) "New" true "All" "2026-01-01T00:00:00Z"
      = .ok (.earlyReturn (.apiCallError "API item lookups must contain 1-10 items."))
    ∧ (∃ u, lookupBuild ⟨"AKIDEXAMPLE", "secretkey", "assoc-20"⟩ (.tuple []) "ASIN"
        (.tuple ["Large"]) "New" true "All" "2026-01-01T00:00:00Z" = .ok (.url u))
    ∧ (∃ u, lookupBuild ⟨"AKIDEXAMPLE", "secretkey", "assoc-20"⟩ (.tuple ["B000000001"]) "ASIN"
        (.tuple ["Large"]) "New" true "All" "2026-01-01T00:00:00Z" = .ok (.url u)) :=
  ⟨rfl, rfl, rfl, ⟨_, rfl⟩, ⟨_, rfl⟩⟩

/-- C2: counterexample to the claim that all three numeric price
accessors parse a string Amount to an integer.  For
`ListPrice.Amount = "1999"` the `list_price` field stores the string
`"1999"` unchanged: `ItemAttributes.__init__` has no `int` conversion,
unlike `OfferSummary` and `Offers`. -/
theorem claim_C2_counterexample :
    (itemAttributesInit (.dict [("ListPrice", .dict [("Amount", PyVal.str "1999")])])).map
        ItemAttributesView.list_price = .ok (.str "1999")
    ∧ ¬ ((itemAttributesInit (.dict [("ListPrice", .dict [("Amount", PyVal.str "1999")])])).map
        ItemAttributesView.list_price = .ok (.int 1999)) :=
  ⟨rfl, fun hc => PyVal.noConfusion (Except.ok.inj hc)⟩

/-- C2 (amended): of the three price accessors only the lowest-new and
buy-box amounts are parsed from a string to an integer; the list-price
accessor stores the string Amount unchanged.  Absent nodes yield `None`
without raising for all three, and no other numeric field (lowest used,
collectible or refurbished price, offer counts) is coerced. -/
theorem claim_C2_price_fields :
    (∀ (s : String) (n : Int), pyIntParse s = .ok n →
      (offerSummaryInit (.dict [("LowestNewPrice", .dict [("Amount", PyVal.str s)])])).map
          OfferSummaryView.lowest_new_price = .ok (.int n)
      ∧ (offersInit (.dict [("Offer", .dict [("OfferListing",
            .dict [("Price", .dict [("Amount", PyVal.str s)])])])])).map
          OffersView.buy_box_price = .ok (.int n))
    ∧ (∀ s : String,
        (itemAttributesInit (.dict [("ListPrice", .dict [("Amount", PyVal.str s)])])).map
          ItemAttributesView.list_price = .ok (.str s))
    ∧ ((offerSummaryInit (.dict [])).map OfferSummaryView.lowest_new_price = .ok .none
      ∧ (offersInit (.dict [])).map OffersView.buy_box_price = .ok .none
      ∧ (itemAttributesInit (.dict [])).map ItemAttributesView.list_price = .ok .none)
    ∧ (∀ s : String,
        (offerSummaryInit (.dict [("LowestUsedPrice", .dict [("Amount", PyVal.str s)])])).map
          OfferSummaryView.lowest_used_price = .ok (.str s)
        ∧ (offerSummaryInit (.dict [("LowestCollectiblePrice",
              .dict [("Amount", PyVal.str s)])])).map
            OfferSummaryView.lowest_collectible_price = .ok (.str s)
        ∧ (offerSummaryInit (.dict [("LowestRefurbishedPrice",
              .dict [("Amount", PyVal.str s)])])).map
            OfferSummaryView.lowest_refurbished_price = .ok (.str s)
        ∧ (offerSummaryInit (.dict [("TotalNew", PyVal.str s)])).map
            OfferSummaryView.new_offers = .ok (.str s)
        ∧ (offersInit (.dict [("TotalOffers", PyVal.str s)])).map
            OffersView.total_offers = .ok (.str s)) := by
  refine ⟨fun s n h => ⟨?_, ?_⟩, fun s => rfl, ⟨rfl, rfl, rfl⟩,
    fun s => ⟨rfl, rfl, rfl, rfl, rfl⟩⟩
  · simp [offerSummaryInit, pyGetPath, pyGet, lookupEntry, coerceAmount, h, Except.map,
      Except.bind, bind, pure, Except.pure]
  · simp [offersInit, pyGetPath, pyGet, lookupEntry, coerceAmount, h, pyEqStr, Except.map,
      Except.bind, bind, pure, Except.pure]

/-- C2 witness: the hypotheses of the amended price theorem hold at the
concrete amount string `"1999"`, which parses to the integer 1999 and is
stored as an integer by the lowest-new-price accessor. -/
theorem claim_C2_price_fields_witness :
    pyIntParse "1999" = .ok 1999
    ∧ (offerSummaryInit (.dict [("LowestNewPrice", .dict [("Amount", PyVal.str "1999")])])).map
        OfferSummaryView.lowest_new_price = .ok (.int 1999)
    ∧ (offersInit (.dict [("Offer", .dict [("OfferListing",
          .dict [("Price", .dict [("Amount", PyVal.str "1999")])])])])).map
        OffersView.buy_box_price = .ok (.int 1999) :=
  ⟨rfl, (claim_C2_price_fields.1 "1999" 1999 rfl).1, (claim_C2_price_fields.1 "1999" 1999 rfl).2⟩

/-- C3: counterexample to the claim that a present but neither object-
nor sequence-shaped items node raises an error class distinct from the
remote-rejection class.  The source has no `UnknownResponseShapeError`:
the unknown-shape branch raises `APIReturnError`, the very class used
for remote rejections, as both evaluations show. -/
theorem claim_C3_counterexample :
    lookupProcess (mkLookupResponse (.str "True") (.str "not-a-record"))
      = .error (.apiReturnError "Unknown response type")
    ∧ lookupProcess (mkErrorResponse (.dict [("Code", PyVal.str "AWS.InvalidParameterValue"),
        ("Message", PyVal.str "foo")]))
      = .error (.apiReturnError "API Lookup Error AWS.InvalidParameterValue - foo") :=
  ⟨rfl, rfl⟩

/-- C3 (amended): when the items node is present but neither
object-shaped nor sequence-shaped, `lookup` raises `APIReturnError`
with the message `Unknown response type` — the same exception class
used for remote rejections, not a distinct one. -/
theorem claim_C3_unknown_shape (itemVal : PyVal) (h : isScalarNode itemVal = true) :
    lookupProcess (mkLookupResponse (.str "True") itemVal)
      = .error (.apiReturnError "Unknown response type") := by
  cases itemVal <;> first | rfl | simp [isScalarNode] at h

/-- C3 witness: the unknown-shape theorem applied to a concrete scalar
items node. -/
theorem claim_C3_unknown_shape_witness :
    isScalarNode (PyVal.str "B00SCALAR") = true
    ∧ lookupProcess (mkLookupResponse (.str "True") (PyVal.str "B00SCALAR"))
        = .error (.apiReturnError "Unknown response type") :=
  ⟨rfl, claim_C3_unknown_shape (PyVal.str "B00SCALAR") rfl⟩

/-- C4: the normalizer resolves the single-vs-plural ambiguity: an
object-shaped items node yields a one-element result, a sequence-shaped
node with N records yields N results, and the same record presented as
a single object or as a one-element sequence yields the same
one-element result. -/
theorem claim_C4_normalizer_shapes :
    (∀ (es : List (String × PyVal)) (it : AmazonItemView),
        amazonItemInit (.dict es) = .ok it →
        lookupProcess (mkLookupResponse (.str "True") (.dict es)) = .ok [it])
    ∧ (∀ (xs : List PyVal) (its : List AmazonItemView),
        mapInit xs = .ok its →
        lookupProcess (mkLookupResponse (.str "True") (.list xs)) = .ok its
        ∧ its.length = xs.length)
    ∧ (∀ es : List (String × PyVal),
        lookupProcess (mkLookupResponse (.str "True") (.dict es))
          = lookupProcess (mkLookupResponse (.str "True") (.list [PyVal.dict es]))) := by
  refine ⟨fun es it h => ?_, fun xs its h => ⟨?_, mapInit_length xs its h⟩, fun es => ?_⟩
  · simp [lookupProcess, mkLookupResponse, pyPath, pySubscript, lookupEntry, pyEqStr, h,
      Except.bind, bind, pure, Except.pure]
  · simp [lookupProcess, mkLookupResponse, pyPath, pySubscript, lookupEntry, pyEqStr, h,
      Except.bind, bind, pure, Except.pure]
  · cases hx : amazonItemInit (.dict es) <;>
      simp [lookupProcess, mkLookupResponse, pyPath, pySubscript, lookupEntry, pyEqStr, hx,
        mapInit, Except.bind, bind, pure, Except.pure]

/-- C4 witness: the shape theorems applied to concrete records — a
single object-shaped record gives one item, and a two-element sequence
gives two items. -/
theorem claim_C4_normalizer_shapes_witness :
    (∃ it, amazonItemInit (.dict [("ASIN", PyVal.str "B00TEST01")]) = .ok it
      ∧ lookupProcess (mkLookupResponse (.str "True")
          (.dict [("ASIN", PyVal.str "B00TEST01")])) = .ok [it])
    ∧ (∃ its, mapInit [PyVal.dict [("ASIN", PyVal.str "B00A")],
          PyVal.dict [("ASIN", PyVal.str "B00B")]] = .ok its
      ∧ lookupProcess (mkLookupResponse (.str "True")
          (.list [PyVal.dict [("ASIN", PyVal.str "B00A")],
                  PyVal.dict [("ASIN", PyVal.str "B00B")]])) = .ok its
      ∧ its.length = 2) :=
  ⟨⟨_, rfl, claim_C4_normalizer_shapes.1 _ _ rfl⟩,
   ⟨_, rfl, (claim_C4_normalizer_shapes.2.1
      [PyVal.dict [("ASIN", PyVal.str "B00A")], PyVal.dict [("ASIN", PyVal.str "B00B")]]
      _ rfl).1, rfl⟩⟩

/-- C5: the signature is computed by building the string-to-sign as
four newline-joined fields (fixed method token `GET`, fixed host
`webservices.amazon.com`, fixed path `/onca/xml`, canonical query
string), taking HMAC-SHA256 with secret and message interpreted as
Latin-1 single-byte encodings, Base64-encoding the digest, percent
encoding the result, and appending it as a final `Signature` parameter
to the canonical query string without resorting: the signing step of
`lookup` coincides with this pipeline for every secret key and
canonical query string. -/
theorem claim_C5_signing_pipeline (secret qs : String) :
    signQueryString secret qs = specSignature secret qs := by
  simp only [signQueryString, specSignature, newlineJoin_signing]

/-- C6: when the validity flag at the fixed path is the string `False`,
`lookup` raises `APIReturnError`: for a single (object-shaped) error
record the message carries both the error code and the error message in
the fixed `API Lookup Error code - message` format, and for a sequence
of error records the message is the serialized `json.dumps` rendering
of all of them. -/
theorem claim_C6_remote_rejection :
    (∀ c m : String,
      lookupProcess (mkErrorResponse (.dict [("Code", PyVal.str c), ("Message", PyVal.str m)]))
        = .error (.apiReturnError ("API Lookup Error " ++ c ++ " - " ++ m)))
    ∧ (∀ xs : List PyVal,
      lookupProcess (mkErrorResponse (.list xs))
        = .error (.apiReturnError (jsonDumps (.list xs)))) :=
  ⟨fun _ _ => rfl, fun _ => rfl⟩

/-- C7: the canonical query string lists parameter names in strictly
ascending code-point order, and re-sorting the produced `name=value`
pair sequence by name is a no-op — for every choice of parameter
values, with and without the merchant filter. -/
theorem claim_C7_canonical_sorted
    (access associate item_ids rg ts cond irs idt merchant : String) :
    List.Pairwise (fun a b : String => strLtb a b = true)
      ((canonicalPairs (encodedQuery
        (rawQuery access associate item_ids rg ts cond irs idt merchant))).map Prod.fst)
    ∧ pySortedPairs (canonicalPairs (encodedQuery
        (rawQuery access associate item_ids rg ts cond irs idt merchant)))
      = canonicalPairs (encodedQuery
        (rawQuery access associate item_ids rg ts cond irs idt merchant)) := by
  by_cases hm : (merchant == "Amazon") = true
  · have hk : (canonicalPairs (encodedQuery
        (rawQuery access associate item_ids rg ts cond irs idt merchant))).map Prod.fst
        = ["AWSAccessKeyId", "AssociateTag", "Condition", "IdType", "IncludeReviewsSummary",
           "ItemId", "MerchantId", "Operation", "ResponseGroup", "Service", "Timestamp",
           "Version"] := by
      simp only [rawQuery, hm, if_true]
      rfl
    constructor
    · rw [hk]; decide
    · simp only [rawQuery, hm, if_true]
      rfl
  · have hk : (canonicalPairs (encodedQuery
        (rawQuery access associate item_ids rg ts cond irs idt merchant))).map Prod.fst
        = ["AWSAccessKeyId", "AssociateTag", "Condition", "IdType", "IncludeReviewsSummary",
           "ItemId", "Operation", "ResponseGroup", "Service", "Timestamp", "Version"] := by
      simp only [rawQuery, hm, Bool.false_eq_true, if_false, List.append_nil]
      rfl
    constructor
    · rw [hk]; decide
    · simp only [rawQuery, hm, Bool.false_eq_true, if_false, List.append_nil]
      rfl

/-- C8: the `MerchantId` parameter is present in the canonical query
exactly when the merchant filter equals the string `Amazon`, in which
case its encoded value is `Amazon`; for any other value the parameter
is omitted entirely. -/
theorem claim_C8_merchant_filter
    (access associate item_ids rg ts cond irs idt merchant : String) :
    (("MerchantId" ∈ (canonicalPairs (encodedQuery
        (rawQuery access associate item_ids rg ts cond irs idt merchant))).map Prod.fst)
      ↔ merchant = "Amazon")
    ∧ (merchant = "Amazon" →
        queryValue (encodedQuery (rawQuery access associate item_ids rg ts cond irs idt merchant))
          "MerchantId" = "Amazon") := by
  by_cases hm : merchant = "Amazon"
  · subst hm
    refine ⟨⟨fun _ => rfl, fun _ => ?_⟩, fun _ => rfl⟩
    have hk : (canonicalPairs (encodedQuery
        (rawQuery access associate item_ids rg ts cond irs idt "Amazon"))).map Prod.fst
        = ["AWSAccessKeyId", "AssociateTag", "Condition", "IdType", "IncludeReviewsSummary",
           "ItemId", "MerchantId", "Operation", "ResponseGroup", "Service", "Timestamp",
           "Version"] := by rfl
    rw [hk]; decide
  · have hm2 : (merchant == "Amazon") = false := beq_eq_false_iff_ne.mpr hm
    have hk : (canonicalPairs (encodedQuery
        (rawQuery access associate item_ids rg ts cond irs idt merchant))).map Prod.fst
        = ["AWSAccessKeyId", "AssociateTag", "Condition", "IdType", "IncludeReviewsSummary",
           "ItemId", "Operation", "ResponseGroup", "Service", "Timestamp", "Version"] := by
      simp only [rawQuery, hm2, Bool.false_eq_true, if_false, List.append_nil]
      rfl
    rw [hk]
    exact ⟨⟨fun hmem => absurd hmem (by decide), fun he => absurd he hm⟩,
      fun he => absurd he hm⟩

/-- C8 witness: the merchant-filter theorem applied at the sentinel
value `Amazon` (parameter present with value `Amazon`) and at the
default value `All` (parameter absent). -/
theorem claim_C8_merchant_filter_witness :
    ("MerchantId" ∈ (canonicalPairs (encodedQuery
        (rawQuery "AK" "tag-20" "B0" "Large" "TS" "New" "True" "ASIN" "Amazon"))).map Prod.fst)
    ∧ queryValue (encodedQuery
        (rawQuery "AK" "tag-20" "B0" "Large" "TS" "New" "True" "ASIN" "Amazon")) "MerchantId"
      = "Amazon"
    ∧ ¬ ("MerchantId" ∈ (canonicalPairs (encodedQuery
        (rawQuery "AK" "tag-20" "B0" "Large" "TS" "New" "True" "ASIN" "All"))).map Prod.fst) :=
  ⟨(claim_C8_merchant_filter "AK" "tag-20" "B0" "Large" "TS" "New" "True" "ASIN" "Amazon").1.mpr
      rfl,
   (claim_C8_merchant_filter "AK" "tag-20" "B0" "Large" "TS" "New" "True" "ASIN" "Amazon").2 rfl,
   fun hmem => absurd
     ((claim_C8_merchant_filter "AK" "tag-20" "B0" "Large" "TS" "New" "True" "ASIN" "All").1.mp
       hmem)
     (by decide)⟩

/-- C9: the link accessors return the URL of the first record whose
`Description` equals `Technical Details` and `All Offers` respectively,
and resolve to `None` when no record matches, for every well-formed
ordered sequence of link records. -/
theorem claim_C9_link_accessors (xs : List PyVal) (h : wellFormedLinks xs = true) :
    linksInit (.dict [("ItemLink", PyVal.list xs)])
      = .ok ⟨.list xs, specFirstUrl "Technical Details" xs, specFirstUrl "All Offers" xs⟩ := by
  simp [linksInit, pyGet, lookupEntry, pyIter, findLinkUrl_spec _ xs h,
    Except.bind, bind, pure, Except.pure]

/-- C9 witness: the link theorem applied to a concrete sequence holding
an `All Offers` record and an unrelated record: `all_offers_url`
resolves to `http://x` and `description_url` (no `Technical Details`
record) resolves to `None`. -/
theorem claim_C9_link_accessors_witness :
    wellFormedLinks linkFixture = true
    ∧ linksInit (.dict [("ItemLink", PyVal.list linkFixture)])
        = .ok ⟨.list linkFixture, specFirstUrl "Technical Details" linkFixture,
            specFirstUrl "All Offers" linkFixture⟩
    ∧ specFirstUrl "All Offers" linkFixture = .str "http://x"
    ∧ specFirstUrl "Technical Details" linkFixture = .none :=
  ⟨rfl, claim_C9_link_accessors linkFixture rfl, rfl, rfl⟩

/-- C10: when the `ItemLink` node is a single object-shaped record
instead of a sequence, iterating it yields its string keys and
subscripting those keys raises `TypeError`, so the `Links` view — and
with it the whole `AmazonItem` — fails to construct rather than
degrading the accessors to `None`. -/
theorem claim_C10_object_item_link_raises :
    linksInit (.dict [("ItemLink",
        .dict [("Description", PyVal.str "All Offers"), ("URL", PyVal.str "http://x")])])
      = .error .typeError
    ∧ amazonItemInit (.dict [("ItemLinks", .dict [("ItemLink",
        .dict [("Description", PyVal.str "All Offers"), ("URL", PyVal.str "http://x")])])])
      = .error .typeError :=
  ⟨rfl, rfl⟩
